import Mathlib

/-!
Verification of the Krun API test-case execution engine against its
specification.  The Python sources under
`backend/applications/aotutest/services/` (step engine, step CRUD, tool
service) and `backend/celery_scheduler/celery_base.py` are shallowly
embedded below: Python's heterogeneous runtime values become the `PyValue`
inductive, raised exceptions become `Except`, wall-clock instants become
integers, and the two external libraries the engine calls (`jsonpath_ng`,
`croniter`/`strptime`) become explicit function parameters so every theorem
holds for any behaviour of those libraries.
-/

namespace Krun

/-- Model of a Python runtime value as it flows through the engine's
variable pool, request/response payloads and comparison helpers.
`PyValue.none` models Python `None`; `float` models a Python float by an
exact rational (decimal literals parse exactly; binary rounding is not
modelled). -/
inductive PyValue where
  | none
  | bool (b : Bool)
  | int (n : Int)
  | str (s : String)
  | float (q : Rat)
  | list (xs : List PyValue)
  | dict (xs : List (String × PyValue))
deriving Repr

/-- Python truthiness (`bool(v)`): `None`, `False`, `0`, `""`, `[]`, `{}`
are falsy, everything else truthy. -/
def pyTruthy : PyValue → Bool
  | .none => false
  | .bool b => b
  | .int n => n != 0
  | .str s => s ≠ ""
  | .float q => q != 0
  | .list xs => !xs.isEmpty
  | .dict xs => !xs.isEmpty

/-- Python `repr(v)` for the values of `PyValue` (container elements are
rendered with `repr`, as Python does inside `str` of a container). -/
def pyRepr : PyValue → String
  | .none => "None"
  | .bool true => "True"
  | .bool false => "False"
  | .int n => toString n
  | .str s => "'" ++ s ++ "'"
  | .float q => toString q
  | .list xs => "[" ++ String.intercalate ", " (xs.attach.map (fun x => pyRepr x.1)) ++ "]"
  | .dict xs =>
      "\x7b" ++
        String.intercalate ", " (xs.attach.map (fun p => "'" ++ p.1.1 ++ "': " ++ pyRepr p.1.2)) ++
        "\x7d"
decreasing_by
  · have := List.sizeOf_lt_of_mem x.2
    simp only [PyValue.list.sizeOf_spec]
    omega
  · have h1 := List.sizeOf_lt_of_mem p.2
    have h2 : sizeOf p.1.2 < sizeOf p.1 := by
      cases p.1 with
      | mk a b => simp
    simp only [PyValue.dict.sizeOf_spec]
    omega

/-- Python `str(v)`: identical to `repr` except top-level strings are
rendered bare. -/
def pyStr : PyValue → String
  | .str s => s
  | v => pyRepr v

/-- One `{key, value, desc}` entry of a variable list
(`defined_variables` / `session_variables`).  An entry whose `value` key is
absent reads as Python `None`, which `PyValue.none` already covers. -/
structure VarItem where
  key : String
  value : PyValue
  desc : String := ""
deriving Repr

/-- `StepExecutionContext.get_value_from_list`
(autotest_step_engine.py:200-212): the `value` of the first item whose
`key` equals `name`; `None` when no item matches. -/
def get_value_from_list : List VarItem → String → PyValue
  | [], _ => .none
  | item :: rest, name =>
      if item.key = name then item.value else get_value_from_list rest name

/-- The two error shapes `get_variable` can raise: `StepExecutionError` for
an invalid (empty) name, `KeyError` for an undefined variable. -/
inductive GetVarError where
  | invalid_name
  | key_not_found
deriving Repr, DecidableEq

/-- `StepExecutionContext.get_variable` (autotest_step_engine.py:282-307):
search `defined_variables` then `session_variables`; a scope whose lookup
returns `None` falls through to the next; `KeyError` when both miss. -/
def get_variable (defined_variables session_variables : List VarItem)
    (name : String) : Except GetVarError PyValue :=
  if name = "" then .error .invalid_name
  else
    match get_value_from_list defined_variables name with
    | .none =>
        match get_value_from_list session_variables name with
        | .none => .error .key_not_found
        | v => .ok v
    | v => .ok v

/-- The argument passed to `update_variables`: the engine's call sites pass
either a `key/value/desc` list or (in the loop executors) a plain dict. -/
inductive VarUpdateData where
  | dict (pairs : List (String × PyValue))
  | list (items : List VarItem)

/-- The replace-in-place-or-append step of `update_variables`
(autotest_step_engine.py:259-273): the first existing item with the same
key is replaced by the whole new item, otherwise the item is appended;
items with a falsy key are skipped. -/
def upsert_item : List VarItem → VarItem → List VarItem
  | [], item => [item]
  | x :: rest, item =>
      if x.key = item.key then item :: rest else x :: upsert_item rest item

/-- One iteration of the `for item in data` loop of `update_variables`,
including the falsy-key skip. -/
def upsert_checked (target : List VarItem) (item : VarItem) : List VarItem :=
  if item.key = "" then target else upsert_item target item

/-- `StepExecutionContext.update_variables`
(autotest_step_engine.py:242-280): rejects any non-list `data` with a
`ValueError` (modelled as `Except.error`), otherwise upserts each entry by
key into the selected scope's list. -/
def update_variables (scope : String) (target : List VarItem)
    (data : VarUpdateData) : Except String (List VarItem) :=
  if scope = "defined_variables" ∨ scope = "session_variables" then
    match data with
    | .dict _ =>
        .error ("【更新变量】-【" ++ scope ++ "】错误: " ++ scope ++
          "必须是列表类型，每个元素包含key、value、desc")
    | .list items => .ok (items.foldl upsert_checked target)
  else
    .error ("【更新变量】-【" ++ scope ++ "】错误: '" ++ scope ++
      "' 不是有效的变量作用域(仅支持: defined_variables、session_variables)")

/-- The per-iteration variable binding built by
`LoopStepExecutor._execute_iterable_loop`
(autotest_step_engine.py:1234-1237): a plain dict
`{f"{index_var}_{idx}": idx, f"{value_var}_{idx}": item}` handed to
`update_variables(..., scope="session_variables")`. -/
def iterable_loop_bindings (index_var_name value_var_name : String)
    (idx : Nat) (item : PyValue) : VarUpdateData :=
  .dict [(index_var_name ++ "_" ++ toString idx, PyValue.int idx),
         (value_var_name ++ "_" ++ toString idx, item)]

/-! ## Placeholder resolution (`StepExecutionContext.resolve_placeholders`)

The regex `_RE_PLACEHOLDER = r"\$\x7b([^\x7d]+)\x7d"` is embedded as a
left-to-right scanner over the character list: a match starts at `$`
followed by `\x7b` and is closed by the nearest following `\x7d`, with a
non-empty body that contains no `\x7d`.  `re.sub` semantics (leftmost,
non-overlapping, the replacement is not rescanned) are reproduced
exactly. -/

/-- Scan up to the first closing brace, returning the body before it and
the remainder after it; `none` when no closing brace exists. -/
def findClose : List Char → Option (List Char × List Char)
  | [] => Option.none
  | c :: rest =>
      if c = '\x7d' then some ([], rest)
      else (findClose rest).map (fun p => (c :: p.1, p.2))

/-- Python `str.strip()` on a character list: whitespace removed from both
ends. -/
def pyStripChars (l : List Char) : List Char :=
  ((l.dropWhile Char.isWhitespace).reverse.dropWhile Char.isWhitespace).reverse

/-- ASCII lowering of one character (`str.lower()` on the ASCII strings
the engine feeds it). -/
def charLower (c : Char) : Char :=
  if 'A' ≤ c && c ≤ 'Z' then Char.ofNat (c.toNat + 32) else c

/-- Python `str.lower()` (ASCII range). -/
def asciiLower (s : String) : String := String.mk (s.data.map charLower)

/-- The inputs `resolve_placeholders` consults while replacing one
placeholder: the two variable scopes and the generator catalog.  `funcs`
models `AutoTestToolService.execute_func_string_single` composed with
`str(...)`: `some s` is a successful call rendered as a string, `none`
models any raised exception. -/
structure ResolveEnv where
  defined_variables : List VarItem
  session_variables : List VarItem
  funcs : String → Option String

/-- The literal text of an unresolved placeholder, i.e. `match.group(0)`. -/
def placeholderLiteral (content : List Char) : List Char :=
  '$' :: '\x7b' :: (content ++ ['\x7d'])

/-- The `replace` callback of `resolve_placeholders`
(autotest_step_engine.py:318-346): strip the body; an all-whitespace body
keeps the literal; a body containing both parentheses is dispatched to the
generator catalog (exception keeps the literal); otherwise the variable
pool is consulted and any lookup failure keeps the literal; a resolved
value is substituted as `str(value)`. -/
def replaceOne (env : ResolveEnv) (content : List Char) : List Char :=
  let varName := pyStripChars content
  if varName.isEmpty then placeholderLiteral content
  else if varName.contains '(' && varName.contains ')' then
    match env.funcs (String.mk varName) with
    | some v => v.data
    | Option.none => placeholderLiteral content
  else
    match get_variable env.defined_variables env.session_variables (String.mk varName) with
    | .ok v => (pyStr v).data
    | .error _ => placeholderLiteral content

/-- `_RE_PLACEHOLDER.sub(replace, value)` as a scanner over the character
list of the string being resolved. -/
def resolveChars (env : ResolveEnv) : List Char → List Char
  | [] => []
  | c :: rest =>
    if c = '$' then
      match rest with
      | [] => [c]
      | c2 :: rest2 =>
        if c2 = '\x7b' then
          match hfc : findClose rest2 with
          | some (content, rest') =>
            if content = [] then c :: c2 :: '\x7d' :: resolveChars env rest'
            else replaceOne env content ++ resolveChars env rest'
          | Option.none => c :: rest
        else c :: resolveChars env (c2 :: rest2)
    else c :: resolveChars env rest
termination_by l => l.length
decreasing_by
  all_goals simp only [List.length_cons]
  all_goals try
    (have key : ∀ (l b r : List Char), findClose l = some (b, r) →
          l.length = b.length + 1 + r.length := by
        intro l
        induction l with
        | nil => intro b r hb; simp [findClose] at hb
        | cons x xs ih =>
          intro b r hb
          simp only [findClose] at hb
          split at hb
          · simp only [Option.some.injEq, Prod.mk.injEq] at hb
            obtain ⟨hb1, hb2⟩ := hb
            subst hb1; subst hb2
            simp only [List.length_cons, List.length_nil]
            omega
          · simp only [Option.map_eq_some'] at hb
            obtain ⟨p, hp, he⟩ := hb
            have hq := ih p.1 p.2 (by rw [hp])
            cases he
            simp only [List.length_cons]
            omega
     have hlen := key _ _ _ hfc)
  all_goals omega

/-- The bodies of all placeholders that `resolveChars` would replace, in
scan order. -/
def placeholderContents : List Char → List (List Char)
  | [] => []
  | c :: rest =>
    if c = '$' then
      match rest with
      | [] => []
      | c2 :: rest2 =>
        if c2 = '\x7b' then
          match hfc : findClose rest2 with
          | some (content, rest') =>
            if content = [] then placeholderContents rest'
            else content :: placeholderContents rest'
          | Option.none => []
        else placeholderContents (c2 :: rest2)
    else placeholderContents rest
termination_by l => l.length
decreasing_by
  all_goals simp only [List.length_cons]
  all_goals try
    (have key : ∀ (l b r : List Char), findClose l = some (b, r) →
          l.length = b.length + 1 + r.length := by
        intro l
        induction l with
        | nil => intro b r hb; simp [findClose] at hb
        | cons x xs ih =>
          intro b r hb
          simp only [findClose] at hb
          split at hb
          · simp only [Option.some.injEq, Prod.mk.injEq] at hb
            obtain ⟨hb1, hb2⟩ := hb
            subst hb1; subst hb2
            simp only [List.length_cons, List.length_nil]
            omega
          · simp only [Option.map_eq_some'] at hb
            obtain ⟨p, hp, he⟩ := hb
            have hq := ih p.1 p.2 (by rw [hp])
            cases he
            simp only [List.length_cons]
            omega
     have hlen := key _ _ _ hfc)
  all_goals omega

/-- The string case of `StepExecutionContext.resolve_placeholders`
(autotest_step_engine.py:309-376).  The dict/list cases of the source
recurse into values and apply this function to every embedded string; the
outer `try` makes the whole method total, which the embedding reflects by
construction. -/
def resolve_placeholders (env : ResolveEnv) (s : String) : String :=
  String.mk (resolveChars env s.data)

/-! ## Child-step ordering (`BaseStepExecutor.children` / `_execute_children`) -/

/-- The fields of a sub-step record that `BaseStepExecutor.children`
consults: `item.get("step_no", 0)` reads 0 when the key is absent. -/
structure ChildStep where
  step_no : Option Int
  step_code : String
deriving Repr, DecidableEq

/-- The sort key `lambda item: item.get("step_no", 0)`
(autotest_step_engine.py:846). -/
def step_no_key (s : ChildStep) : Int := s.step_no.getD 0

/-- `BaseStepExecutor.children` (autotest_step_engine.py:842-847):
`sorted((children or []) + (quote_steps or []), key=step_no)`.  Python's
`sorted` is a stable sort, which `List.mergeSort` matches. -/
def children_sorted (children quote_steps : List ChildStep) : List ChildStep :=
  (children ++ quote_steps).mergeSort (fun a b => decide (step_no_key a ≤ step_no_key b))

/-- `BaseStepExecutor._execute_children`
(autotest_step_engine.py:999-1040): iterate `self.children` in order; every
child contributes exactly one result (its execution result, or a synthetic
failed result when the executor raises), so the run is a map over the
sorted list. -/
def execute_children (R : Type) (exec1 : ChildStep → R)
    (children quote_steps : List ChildStep) : List R :=
  (children_sorted children quote_steps).map exec1

/-! ## Loop executors (`LoopStepExecutor`)

COUNT and CONDITION loops are embedded with the per-iteration behaviour of
the children abstracted into oracles: `childFail i` says whether some child
of iteration `i` reports failure, `timeoutHit i` whether the wall-clock
timeout check at the top of iteration `i` trips, `condEval i` the outcome
of the condition evaluation after iteration `i` (`Except.error` = the
evaluation raised).  The `loop_interval` sleep between iterations only
spends time and is not modelled.  The returned pair is (number of
iterations whose children were executed, how the loop ended). -/

/-- `loop_on_error` strategies (CONTINUE / BREAK / STOP). -/
inductive LoopErrorStrategy where
  | CONTINUE
  | BREAK
  | STOP
deriving Repr, DecidableEq

/-- How a loop run ends. -/
inductive LoopExit where
  | completed
  | breakEarly
  | timedOut
  | condFalse
  | condFailed (msg : String)
  | raised (msg : String)
deriving Repr, DecidableEq

/-- The hard safety cap `guard_limit = 100`
(autotest_step_engine.py:1114, 1423). -/
def loop_guard_limit : Nat := 100

/-- The "suspected infinite loop" error raised when the cap is reached
(autotest_step_engine.py:1168-1172, 1506-1510). -/
def guardErrorMessage (iteration : Nat) : String :=
  "【循环结构】循环次数超过最大限制100次: 已执行 " ++ toString iteration ++
  " 次, 疑似无限循环, 为保护系统安全已自动终止循环"

/-- The `StepExecutionError` escalated when a child fails under STOP
(autotest_step_engine.py:1132-1134). -/
def stopChildMessage : String :=
  "【循环结构】子步骤执行失败(错误处理策略: 停止整个用例执行)"

/-- The body of the `for iteration in range(1, loop_maximums + 1)` loop of
`LoopStepExecutor._execute_count_loop` (autotest_step_engine.py:1117-1172),
starting at iteration `iter`: run children, apply the on-error strategy,
then the safety guard, then continue while `iter < maximums`. -/
def count_loop_go (maximums : Nat) (on_error : LoopErrorStrategy)
    (childFail : Nat → Bool) (iter : Nat) : Nat × LoopExit :=
  let failExit : Option LoopExit :=
    if childFail iter then
      match on_error with
      | .STOP => some (.raised stopChildMessage)
      | .BREAK => some .breakEarly
      | .CONTINUE => Option.none
    else Option.none
  match failExit with
  | some e => (1, e)
  | Option.none =>
    if iter ≥ loop_guard_limit then (1, .raised (guardErrorMessage iter))
    else if iter < maximums then
      let r := count_loop_go maximums on_error childFail (iter + 1)
      (r.1 + 1, r.2)
    else (1, .completed)
termination_by loop_guard_limit + 1 - iter
decreasing_by
  simp only [loop_guard_limit] at *
  omega

/-- `LoopStepExecutor._execute_count_loop`
(autotest_step_engine.py:1102-1174), including the falsy `loop_maximums`
rejection. -/
def execute_count_loop (loop_maximums : Nat) (on_error : LoopErrorStrategy)
    (childFail : Nat → Bool) : Nat × LoopExit :=
  if loop_maximums = 0 then
    (0, .raised "【循环结构】次数循环模式不允许loop_maximums参数为空")
  else count_loop_go loop_maximums on_error childFail 1

/-- The body of the `while should_continue` loop of
`LoopStepExecutor._execute_condition_loop`
(autotest_step_engine.py:1430-1514): timeout check first (children do not
run in that round), then children, then the on-error strategy, then the
condition, then the safety guard. -/
def condition_loop_go (on_error : LoopErrorStrategy)
    (childFail timeoutHit : Nat → Bool) (condEval : Nat → Except String Bool)
    (iter : Nat) : Nat × LoopExit :=
  if timeoutHit iter then (0, .timedOut)
  else
    let failExit : Option LoopExit :=
      if childFail iter then
        match on_error with
        | .STOP => some (.raised stopChildMessage)
        | .BREAK => some .breakEarly
        | .CONTINUE => Option.none
      else Option.none
    match failExit with
    | some e => (1, e)
    | Option.none =>
      match condEval iter with
      | .error m => (1, .condFailed ("【循环结构】条件评估失败: " ++ m))
      | .ok false => (1, .condFalse)
      | .ok true =>
        if iter ≥ loop_guard_limit then (1, .raised (guardErrorMessage iter))
        else
          let r := condition_loop_go on_error childFail timeoutHit condEval (iter + 1)
          (r.1 + 1, r.2)
termination_by loop_guard_limit + 1 - iter
decreasing_by
  simp only [loop_guard_limit] at *
  omega

/-- `LoopStepExecutor._execute_condition_loop`
(autotest_step_engine.py:1407-1516), including the falsy `conditions`
rejection. -/
def execute_condition_loop (conditions : Option String)
    (on_error : LoopErrorStrategy) (childFail timeoutHit : Nat → Bool)
    (condEval : Nat → Except String Bool) : Nat × LoopExit :=
  match conditions with
  | Option.none => (0, .raised "【循环结构】条件循环模式不允许conditions参数为空")
  | some c =>
      if c = "" then (0, .raised "【循环结构】条件循环模式不允许conditions参数为空")
      else condition_loop_go on_error childFail timeoutHit condEval 1

/-! ## Scheduler dueness (`check_task_expired`, celery_base.py) -/

/-- The fields of a scheduled task consulted by `check_task_expired`.
Wall-clock instants are modelled as integers (seconds). -/
structure TaskInfo where
  task_scheduler : Option String
  task_crontabs_expr : Option String
  task_interval_expr : Option Int
  task_datetime_expr : Option String
  last_execute_time : Option Int
  created_time : Option Int

/-- The two external time libraries: `cron_next e b` models
`croniter(e, b).get_next(datetime)` (`none` = the call raised);
`strptime e` models `datetime.strptime(e, "%Y-%m-%d %H:%M:%S")`
(`none` = parse failure). -/
structure TimeLibs where
  cron_next : String → Int → Option Int
  strptime : String → Option Int

/-- `get_scheduler_value` (celery_base.py:165-171): strip + lowercase, with
empty collapsing to `None`. -/
def get_scheduler_value (s : Option String) : Option String :=
  match s with
  | Option.none => Option.none
  | some v =>
      let t := asciiLower (String.mk (pyStripChars v.data))
      if t = "" then Option.none else some t

/-- `check_task_expired` (celery_base.py:189-258).  `last_run` falls back
from `last_execute_time` to `created_time`; any exception inside a branch
returns `False`. -/
def check_task_expired (libs : TimeLibs) (now : Int) (task : TaskInfo) : Bool :=
  match get_scheduler_value task.task_scheduler with
  | Option.none => false
  | some scheduler_str =>
    let last_run := task.last_execute_time.orElse (fun _ => task.created_time)
    if scheduler_str = "cron" then
      let expr := String.mk (pyStripChars (task.task_crontabs_expr.getD "").data)
      if expr = "" then false
      else
        match libs.cron_next expr (last_run.getD now) with
        | some next_run => next_run ≤ now
        | Option.none => false
    else if scheduler_str = "interval" then
      let seconds := task.task_interval_expr.getD 0
      if seconds ≤ 0 then false
      else
        match last_run with
        | Option.none => true
        | some lr => now - lr ≥ seconds
    else if scheduler_str = "datetime" then
      let expr := String.mk (pyStripChars (task.task_datetime_expr.getD "").data)
      if expr = "" then false
      else
        match libs.strptime expr with
        | Option.none => false
        | some target =>
          match last_run with
          | some lr => if lr ≥ target then false else decide (now ≥ target)
          | Option.none => decide (now ≥ target)
    else false

/-! ## Deferred-save persistence (`AutoTestApiStepCrud.execute_single_case`)

The final persistence phase (autotest_step_crud.py:948-979): one
transaction creating the report, every pending detail, and the case-state
update.  `in_transaction` semantics (the external Tortoise library): on any
raised error all writes roll back, i.e. the database state is unchanged.
Which write fails is injected through `TxFailure`. -/

/-- A minimal database state: created report codes, created detail
payloads, and the case's last-run state. -/
structure CaseRunDb where
  reports : List String
  details : List String
  case_state : Option Bool
  case_last_time : Option String
deriving Repr, DecidableEq

/-- Failure injection for the three kinds of writes in the transaction. -/
structure TxFailure where
  report_create_fails : Bool
  detail_create_fails : String → Bool
  case_update_fails : Bool

/-- The `for detail_create in pending_create_details` loop
(autotest_step_crud.py:952-954). -/
def create_details (inj : TxFailure) (db : CaseRunDb) :
    List String → Except String CaseRunDb
  | [] => .ok db
  | d :: rest =>
      if inj.detail_create_fails d then .error ("create_detail failed: " ++ d)
      else create_details inj { db with details := db.details ++ [d] } rest

/-- The transaction body (autotest_step_crud.py:950-961): create report,
create each detail stamped with the report code, update the case state. -/
def save_transaction (db : CaseRunDb) (report_code : String)
    (details : List String) (case_state : Bool) (case_last_time : String)
    (inj : TxFailure) : Except String CaseRunDb := do
  if inj.report_create_fails then throw "create_report failed"
  let db1 : CaseRunDb := { db with reports := db.reports ++ [report_code] }
  let db2 ← create_details inj db1 details
  if inj.case_update_fails then throw "update_case failed"
  pure { db2 with case_state := some case_state, case_last_time := some case_last_time }

/-- The summary dict built at autotest_step_crud.py:966-977. -/
structure ExecSummary where
  success : Bool
  total_steps : Nat
  success_steps : Nat
  failed_steps : Nat
  report_code : Option String
  saved_to_database : Bool
deriving Repr, DecidableEq

/-- The save phase of `execute_single_case`
(autotest_step_crud.py:948-979): run the transaction; an error is logged
and swallowed (`in_transaction` rolls the writes back, leaving `db`
unchanged), and the summary is returned either way with the literal
`"saved_to_database": True` of line 973. -/
def execute_single_case_save (db : CaseRunDb) (report_code : String)
    (details : List String) (case_last_time : String) (inj : TxFailure)
    (total_steps success_steps failed_steps : Nat) : CaseRunDb × ExecSummary :=
  let case_state := failed_steps == 0
  let summary : ExecSummary :=
    { success := failed_steps == 0
      total_steps := total_steps
      success_steps := success_steps
      failed_steps := failed_steps
      report_code := some report_code
      saved_to_database := true }
  match save_transaction db report_code details case_state case_last_time inj with
  | .ok db2 => (db2, summary)
  | .error _ => (db, summary)

/-! ## Comparison helpers (`AutoTestToolService`, autotest_tool_service.py)

Python's dynamically typed `==`, `<` and coercions are modelled on
`PyValue`: `bool` is an `int` subclass, so bool/int/float unify for
numeric comparison. -/

/-- The numeric view Python uses for `==` and `<` between bool/int/float
operands. -/
def asRat : PyValue → Option Rat
  | .bool b => some (if b then 1 else 0)
  | .int n => some (n : Rat)
  | .float q => some q
  | _ => Option.none

/-- Python `==` on `PyValue`: numeric operands compare by value, `None`,
strings and containers compare structurally (dicts irrespective of key
order), mixed kinds compare unequal. -/
def pyEq (a b : PyValue) : Bool :=
  match asRat a, asRat b with
  | some x, some y => x == y
  | _, _ =>
    match a, b with
    | .none, .none => true
    | .str s, .str t => s == t
    | .list xs, .list ys =>
        xs.length == ys.length &&
        (xs.zip ys).attach.all (fun p => pyEq p.1.1 p.1.2)
    | .dict xs, .dict ys =>
        xs.length == ys.length &&
        xs.attach.all (fun p =>
          match ys.find? (fun q => q.1 == p.1.1) with
          | some q => pyEq p.1.2 q.2
          | Option.none => false)
    | _, _ => false
termination_by sizeOf a
decreasing_by
  · have hm : (p.1.1, p.1.2) ∈ xs.zip ys := by
      rw [Prod.mk.eta]
      exact p.2
    have := List.sizeOf_lt_of_mem (List.of_mem_zip hm).1
    simp only [PyValue.list.sizeOf_spec]
    omega
  · have h1 := List.sizeOf_lt_of_mem p.2
    have h2 : sizeOf p.1.2 < sizeOf p.1 := by
      cases p.1 with
      | mk a b => simp
    simp only [PyValue.dict.sizeOf_spec]
    omega

/-- Python `str.isdigit` for the ASCII strings the engine feeds it:
non-empty, all characters 0-9. -/
def pyIsDigit (s : String) : Bool := s ≠ "" && s.data.all Char.isDigit

/-- A digit string with a leading minus sign (the second shape
`_normalize_value` converts with `int(...)`). -/
def isSignedDigits (s : String) : Bool :=
  match s.data with
  | '-' :: rest => !rest.isEmpty && rest.all Char.isDigit
  | _ => false

/-- Python `str.startswith` over character lists. -/
def strStartsWith (s p : String) : Bool := decide (p.data <+: s.data)

/-- Python `str.endswith` over character lists. -/
def strEndsWith (s p : String) : Bool := decide (p.data <:+ s.data)

/-- Accumulate the value of an all-digit character list; `none` on any
non-digit. -/
def digitsVal : List Char → Nat → Option Nat
  | [], acc => some acc
  | c :: rest, acc =>
      if c.isDigit then digitsVal rest (acc * 10 + (c.toNat - 48))
      else Option.none

/-- Python `int(s)` for a digit string with optional leading minus (the
only shapes `_normalize_value` guards with `isdigit` before converting). -/
def pyStrToInt (s : String) : Int :=
  match s.data with
  | '-' :: rest => -(Int.ofNat ((digitsVal rest 0).getD 0))
  | l => Int.ofNat ((digitsVal l 0).getD 0)

/-- Python `float(s)` for a decimal literal
`[+-]digits[.digits][(e|E)[+-]digits]`, as an exact rational; `none`
models `ValueError`. -/
def parseFloat (s : String) : Option Rat :=
  let signBody : Int × List Char :=
    match s.data with
    | '-' :: rest => (-1, rest)
    | '+' :: rest => (1, rest)
    | rest => (1, rest)
  let body := signBody.2
  let mant := body.takeWhile (fun c => c ≠ 'e' && c ≠ 'E')
  let rest := body.drop mant.length
  let intPart := mant.takeWhile (fun c => c ≠ '.')
  let fracPart :=
    if mant.length = intPart.length then [] else mant.drop (intPart.length + 1)
  if fracPart.any (fun c => c = '.') then Option.none
  else if intPart.isEmpty && fracPart.isEmpty then Option.none
  else
    match digitsVal intPart 0, digitsVal fracPart 0 with
    | some ip, some fp =>
      let base : Rat :=
        (signBody.1 * (ip * 10 ^ fracPart.length + fp) : Int) / ((10 : Rat) ^ fracPart.length)
      match rest with
      | [] => some base
      | _ :: expChars =>
        let expSign : Int × List Char :=
          match expChars with
          | '-' :: r => (-1, r)
          | '+' :: r => (1, r)
          | r => (1, r)
        if expSign.2.isEmpty then Option.none
        else
          match digitsVal expSign.2 0 with
          | some e =>
              if expSign.1 = 1 then some (base * (10 : Rat) ^ e)
              else some (base / (10 : Rat) ^ e)
          | Option.none => Option.none
    | _, _ => Option.none

/-- The `'true'`/`'false'` tail of `_normalize_value`
(autotest_tool_service.py:74-78). -/
def normalize_bool_str (s : String) : PyValue :=
  if asciiLower s = "true" then .bool true
  else if asciiLower s = "false" then .bool false
  else .str s

/-- `AutoTestToolService._normalize_value`
(autotest_tool_service.py:55-78): digit strings become ints, dotted
parseable strings become floats, `'true'`/`'false'` become bools,
everything else is returned unchanged. -/
def normalize_value : PyValue → PyValue
  | .none => .none
  | .bool b => .bool b
  | .int n => .int n
  | .float q => .float q
  | .str s =>
      if pyIsDigit s || isSignedDigits s then
        .int (pyStrToInt s)
      else if s.data.contains '.' then
        match parseFloat s with
        | some q => .float q
        | Option.none => normalize_bool_str s
      else normalize_bool_str s
  | .list xs => .list xs
  | .dict xs => .dict xs

/-- `AutoTestToolService._type_aware_equals`
(autotest_tool_service.py:81-95): raw `==` first, then `==` of the
normalized values. -/
def type_aware_equals (actual expected : PyValue) : Bool :=
  pyEq actual expected || pyEq (normalize_value actual) (normalize_value expected)

/-- The four ordering comparators fed to `_type_aware_compare`. -/
inductive CompOp where
  | gt
  | ge
  | lt
  | le
deriving Repr, DecidableEq

/-- Ordering on the numeric view. -/
def ratCompare : CompOp → Rat → Rat → Bool
  | .gt, x, y => x > y
  | .ge, x, y => x ≥ y
  | .lt, x, y => x < y
  | .le, x, y => x ≤ y

/-- Python string ordering: lexicographic by code point. -/
def charListLt : List Char → List Char → Bool
  | [], [] => false
  | [], _ :: _ => true
  | _ :: _, [] => false
  | a :: as, b :: bs =>
      if a < b then true else if b < a then false else charListLt as bs

/-- Ordering comparators on strings (total order, so `¬ <` is `≥`). -/
def strCompare : CompOp → String → String → Bool
  | .gt, a, b => charListLt b.data a.data
  | .ge, a, b => !charListLt a.data b.data
  | .lt, a, b => charListLt a.data b.data
  | .le, a, b => !charListLt b.data a.data

/-- `AutoTestToolService._type_aware_compare`
(autotest_tool_service.py:98-113): normalize both sides; when both are
numeric (bool included, being an `int` subclass) compare numerically,
otherwise compare `str(actual)` with `str(expected)` (the raw values). -/
def type_aware_compare (op : CompOp) (actual expected : PyValue) : Bool :=
  match asRat (normalize_value actual), asRat (normalize_value expected) with
  | some x, some y => ratCompare op x y
  | _, _ => strCompare op (pyStr actual) (pyStr expected)

/-- Python `int(v)` as used by the `长度等于` comparator: bools and ints
pass through, floats truncate toward zero, digit strings parse;
anything else raises (`none`). -/
def pyIntOf : PyValue → Option Int
  | .bool b => some (if b then 1 else 0)
  | .int n => some n
  | .float q => some (if q < 0 then ⌈q⌉ else ⌊q⌋)
  | .str s =>
      if pyIsDigit s || isSignedDigits s then
        some (pyStrToInt s)
      else Option.none
  | _ => Option.none

/-- Python `in` on strings: substring containment. -/
def strContains (haystack needle : String) : Bool :=
  decide (needle.data <:+: haystack.data)

/-- `AutoTestToolService.compare_assertion`
(autotest_tool_service.py:116-148): operator table lookup; an unsupported
operator or a comparator exception raises `ValueError` (`Except.error`). -/
def compare_assertion (actual : PyValue) (operation : String)
    (expected : PyValue) : Except String Bool :=
  if operation = "等于" then .ok (type_aware_equals actual expected)
  else if operation = "不等于" then .ok (!type_aware_equals actual expected)
  else if operation = "大于" then .ok (type_aware_compare .gt actual expected)
  else if operation = "大于等于" then .ok (type_aware_compare .ge actual expected)
  else if operation = "小于" then .ok (type_aware_compare .lt actual expected)
  else if operation = "小于等于" then .ok (type_aware_compare .le actual expected)
  else if operation = "长度等于" then
    match normalize_value expected with
    | .none => .ok false
    | ne =>
        match pyIntOf ne with
        | some n => .ok ((pyStr actual).length == n)
        | Option.none => .error "断言比较失败: int() conversion raised"
  else if operation = "包含" then .ok (strContains (pyStr actual) (pyStr expected))
  else if operation = "不包含" then .ok (!strContains (pyStr actual) (pyStr expected))
  else if operation = "以...开始" then .ok (strStartsWith (pyStr actual) (pyStr expected))
  else if operation = "以...结束" then .ok (strEndsWith (pyStr actual) (pyStr expected))
  else if operation = "非空" then
    .ok ((match actual with | .none => false | _ => true) && !pyEq actual (.str ""))
  else if operation = "为空" then
    .ok ((match actual with | .none => true | _ => false) || pyEq actual (.str ""))
  else .error ("不支持的操作符: " ++ operation)

/-! ## Extract / assert pipeline (`HttpStepExecutor`)

The three external libraries the pipeline calls (`jsonpath_ng`,
`xml.etree.ElementTree`, `re`) are abstracted into `ExternalLibs`; the
repository functions wrapping them (`resolve_json_path`,
`extract_from_source`, `extract_variables`, `run_validators`) are
translated below.  `ExtractErr.step` is a raised `StepExecutionError`,
`ExtractErr.py` any other exception (for example the `AttributeError` from
`range_type.lower()` when `range` is null). -/

/-- External library behaviour: `jsonpath_parses e` is whether
`jsonpath_parse(e)` succeeds; `jsonpath_find e data` the list of match
values of `find`; `xml_findall text expr` models
`ET.fromstring(text).findall(expr)` with each element as
(`element.text`, `ET.tostring(element)`) and its error a `ParseError`;
`regex_search expr text` models `re.search(expr, text)` (`Except.error` =
`re.error`, `Option.none` = no match, `some` = `group(0)`). -/
structure ExternalLibs where
  jsonpath_parses : String → Bool
  jsonpath_find : String → PyValue → List PyValue
  xml_findall : String → String → Except String (List (Option String × String))
  regex_search : String → String → Except String (Option String)

/-- `AutoTestToolService.resolve_json_path`
(autotest_tool_service.py:25-52): validate the expression shape and the
data source, run the library, raise `ValueError` when there is no match,
unwrap a single match. -/
def resolve_json_path (libs : ExternalLibs) (data : PyValue) (expr : String) :
    Except String PyValue :=
  let e := String.mk (pyStripChars expr.data)
  if e = "" then .error ("【JSONPath解析】表达式必须是非空字符串, 当前表达式: " ++ e)
  else if !(strStartsWith e "$.") then
    .error ("【JSONPath解析】表达式必须以$.字符开头, 当前表达式: " ++ e)
  else
    match data with
    | .none => .error "【JSONPath解析】表达式执行数据源不允许为空, 请检查响应数据是否正常返回"
    | _ =>
      if !(libs.jsonpath_parses e) then
        .error ("【JSONPath解析】表达式" ++ e ++ "解析异常")
      else
        match libs.jsonpath_find e data with
        | [] => .error ("【JSONPath解析】表达式" ++ e ++ "在当前数据源中无任何匹配结果, 请检查路径或响应结构")
        | [v] => .ok v
        | vs => .ok (.list vs)

/-- The response echo fields the pipeline reads.  `response_json` is the
parsed body (`none` when `response.json()` raised); headers and cookies
are the maps handed to `extract_variables` / `run_validators`. -/
structure ResponseData where
  status_code : Int
  response_text : Option String
  response_json : Option PyValue
  response_headers : Option (List (String × PyValue))
  response_cookies : Option (List (String × PyValue))

/-- Error classification of `extract_from_source`. -/
inductive ExtractErr where
  | step (msg : String)
  | py (msg : String)
deriving Repr, DecidableEq

/-- Truthiness of the `response_json` argument (`if not response_json`). -/
def respJsonTruthy (resp : ResponseData) : Bool :=
  match resp.response_json with
  | Option.none => false
  | some v => pyTruthy v

/-- Truthiness of an optional string argument (`if not x`). -/
def strTruthy : Option String → Bool
  | Option.none => false
  | some s => s ≠ ""

/-- Truthiness of an optional association-list argument. -/
def assocTruthy : Option (List (String × PyValue)) → Bool
  | Option.none => false
  | some l => !l.isEmpty

/-- Python list indexing `l[i]` with negative wrap-around; `none` is an
`IndexError`. -/
def pyIndex {α : Type} (l : List α) (i : Int) : Option α :=
  if 0 ≤ i then l.get? i.toNat
  else if i.natAbs ≤ l.length then l.get? (l.length - i.natAbs)
  else Option.none

/-- `element.text if element.text else ET.tostring(element)` for one XML
element modelled as (`text`, `tostring`). -/
def xmlElementValue (e : Option String × String) : String :=
  match e.1 with
  | some t => if t = "" then e.2 else t
  | Option.none => e.2

/-- `HttpStepExecutor.extract_from_source`
(autotest_step_engine.py:2297-2443): dispatch on the source taxonomy; all
deliberate failures raise `StepExecutionError` (`ExtractErr.step`);
a null `source` or `range` raises `AttributeError` from `.lower()`
(`ExtractErr.py`), and an out-of-range negative index raises `IndexError`
(`ExtractErr.py` for the JSON branch, re-wrapped into a
`StepExecutionError` by the XML branch's catch-all). -/
def extract_from_source (libs : ExternalLibs)
    (defined_variables session_variables : List VarItem)
    (source : Option String) (expr : Option String) (range_type : Option String)
    (index : Option Int) (resp : ResponseData) (op : String) :
    Except ExtractErr PyValue :=
  match source with
  | Option.none => .error (.py "AttributeError: 'NoneType' object has no attribute 'lower'")
  | some src =>
    let s := asciiLower src
    if s = "response json" then
      if !(respJsonTruthy resp) then .error (.step ("【" ++ op ++ "】响应内容不是有效的JSON数据"))
      else
        match range_type with
        | Option.none => .error (.py "AttributeError: 'NoneType' object has no attribute 'lower'")
        | some r =>
          if asciiLower r = "all" then .ok (resp.response_json.getD .none)
          else if !(strTruthy expr) then
            .error (.step ("【" ++ op ++ "】模式[SOME]下参数[expr]是必须的, 并且需要是有效的JSONPath表达式"))
          else
            match resolve_json_path libs (resp.response_json.getD .none) (expr.getD "") with
            | .error m => .error (.step m)
            | .ok extracted =>
              match extracted, index with
              | .list vs, some idx =>
                  if idx < (vs.length : Int) then
                    match pyIndex vs idx with
                    | some v => .ok v
                    | Option.none => .error (.py "IndexError: list index out of range")
                  else
                    .error (.step ("【" ++ op ++ "】数组越界, 给定索引[" ++ toString idx ++
                      "]不可大于数组长度[" ++ toString vs.length ++ "]"))
              | v, _ => .ok v
    else if s = "response xml" then
      if !(strTruthy resp.response_text) then
        .error (.step ("【" ++ op ++ "】响应内容不是有效的XML数据"))
      else
        match range_type with
        | Option.none => .error (.py "AttributeError: 'NoneType' object has no attribute 'lower'")
        | some r =>
          if asciiLower r = "all" then .ok (.str (resp.response_text.getD ""))
          else if !(strTruthy expr) then
            .error (.step ("【" ++ op ++ "】模式[SOME]下参数[expr]是必须的, 并且需要是有效的XPath表达式"))
          else
            match libs.xml_findall (resp.response_text.getD "") (expr.getD "") with
            | .error m => .error (.step ("【" ++ op ++ "】响应内容不是XML格式, 错误描述: " ++ m))
            | .ok elements =>
              if elements.isEmpty then
                .error (.step ("【" ++ op ++ "】XPath表达式[" ++ expr.getD "" ++
                  "]执行失败, 错误描述: 【" ++ op ++ "】XPath表达式[" ++ expr.getD "" ++ "]未匹配到元素"))
              else
                match index with
                | some idx =>
                    if idx < (elements.length : Int) then
                      match pyIndex elements idx with
                      | some e => .ok (.str (xmlElementValue e))
                      | Option.none =>
                          .error (.step ("【" ++ op ++ "】XPath表达式[" ++ expr.getD "" ++
                            "]执行失败, 错误描述: IndexError"))
                    else
                      .error (.step ("【" ++ op ++ "】XPath表达式[" ++ expr.getD "" ++
                        "]执行失败, 错误描述: 【" ++ op ++ "】数组越界, 给定索引[" ++ toString idx ++
                        "]不可大于数组长度[" ++ toString elements.length ++ "]"))
                | Option.none =>
                    match elements.getLast? with
                    | some e => .ok (.str (xmlElementValue e))
                    | Option.none => .error (.step ("【" ++ op ++ "】XPath表达式执行失败"))
    else if s = "response text" then
      if !(strTruthy resp.response_text) then
        .error (.step ("【" ++ op ++ "】响应内容不是有效的Text数据"))
      else
        match range_type with
        | Option.none => .error (.py "AttributeError: 'NoneType' object has no attribute 'lower'")
        | some r =>
          if asciiLower r = "all" then .ok (.str (resp.response_text.getD ""))
          else if !(strTruthy expr) then
            .error (.step ("【" ++ op ++ "】模式[SOME]下参数[expr]是必须的, 并且需要是有效的正则表达式"))
          else
            match libs.regex_search (expr.getD "") (resp.response_text.getD "") with
            | .error m => .error (.step ("【" ++ op ++ "】正则表达式执行失败, 错误描述: " ++ m))
            | .ok (some matched) => .ok (.str matched)
            | .ok Option.none =>
                .error (.step ("【" ++ op ++ "】正则表达式[" ++ expr.getD "" ++ "]未匹配到内容"))
    else if s = "response header" then
      if !(assocTruthy resp.response_headers) then
        .error (.step ("【" ++ op ++ "】响应header为空"))
      else
        match range_type with
        | Option.none => .error (.py "AttributeError: 'NoneType' object has no attribute 'lower'")
        | some r =>
          if asciiLower r = "all" then .ok (.dict (resp.response_headers.getD []))
          else if !(strTruthy expr) then
            .error (.step ("【" ++ op ++ "】模式[SOME]下参数[expr]是必须的, 并且需要是存在的键名"))
          else
            match (resp.response_headers.getD []).find? (fun q => q.1 == expr.getD "") with
            | some q =>
                if pyTruthy q.2 then .ok q.2
                else .error (.step ("【" ++ op ++ "】响应 Headers 中不存在: " ++ expr.getD ""))
            | Option.none => .error (.step ("【" ++ op ++ "】响应 Headers 中不存在: " ++ expr.getD ""))
    else if s = "response cookie" then
      if !(assocTruthy resp.response_cookies) then
        .error (.step ("【" ++ op ++ "】响应Cookie为空"))
      else
        match range_type with
        | Option.none => .error (.py "AttributeError: 'NoneType' object has no attribute 'lower'")
        | some r =>
          if asciiLower r = "all" then .ok (.dict (resp.response_cookies.getD []))
          else if !(strTruthy expr) then
            .error (.step ("【" ++ op ++ "】模式[SOME]下参数[expr]是必须的, 并且需要是存在的键名"))
          else
            match (resp.response_cookies.getD []).find? (fun q => q.1 == expr.getD "") with
            | some q =>
                if pyTruthy q.2 then .ok q.2
                else .error (.step ("【" ++ op ++ "】响应 Cookies 中不存在: " ++ expr.getD ""))
            | Option.none => .error (.step ("【" ++ op ++ "】响应 Cookies 中不存在: " ++ expr.getD ""))
    else if s = "session_variables" || src = "变量池" then
      if !(strTruthy expr) then
        .error (.step ("【" ++ op ++ "】模式[SOME]下参数[expr]是必须的, 并且需要是存在的键名"))
      else
        match get_variable defined_variables session_variables (expr.getD "") with
        | .ok v => .ok v
        | .error .key_not_found =>
            .error (.step ("【" ++ op ++ "】在变量池[Session Variables Pool]中未找到[" ++
              expr.getD "" ++ "]变量"))
        | .error .invalid_name =>
            .error (.step "【获取变量】变量名无效: 变量名必须是非空字符串")
    else .error (.step ("【" ++ op ++ "】源类型 " ++ src ++ " 不被支持"))

/-- One `extract_variables` configuration entry
`{name, source, range, expr, index}`. -/
structure ExtractConfig where
  name : Option String
  expr : Option String
  source : Option String
  range : Option String
  index : Option Int

/-- One extraction result record as appended by
`HttpStepExecutor.extract_variables` (autotest_step_engine.py:2249-2280). -/
structure ExtractRecord where
  name : Option String
  source : Option String
  range : Option String
  expr : Option String
  index : Option Int
  extract_value : PyValue
  success : Bool
  error : Option String
deriving Repr

/-- The success record of one extraction entry. -/
def extractSuccessRecord (cfg : ExtractConfig) (v : PyValue) : ExtractRecord :=
  ⟨cfg.name, cfg.source, cfg.range, cfg.expr, cfg.index, v, true, Option.none⟩

/-- The failure record of one extraction entry (non-`StepExecutionError`
exceptions only; see `extract_entries`). -/
def extractFailRecord (cfg : ExtractConfig) (m : String) : ExtractRecord :=
  ⟨cfg.name, cfg.source, cfg.range, cfg.expr, cfg.index, .none, false, some m⟩

/-- The `for ext_config in extract_variables` loop of
`HttpStepExecutor.extract_variables` (autotest_step_engine.py:2217-2281):
entries with a falsy `name`/`expr`/`source` are skipped; a
`StepExecutionError` from `extract_from_source` is re-raised (aborting the
whole loop: `except StepExecutionError: raise` precedes the per-entry
handler); any other exception is captured per-entry as a failure record.
The `name -> value` dict also built by the source is discarded unused by
the only caller and is not modelled. -/
def extract_entries (libs : ExternalLibs)
    (defined_variables session_variables : List VarItem) :
    List ExtractConfig → ResponseData → Except String (List ExtractRecord)
  | [], _ => .ok []
  | cfg :: rest, resp =>
      if !(strTruthy cfg.name && strTruthy cfg.expr && strTruthy cfg.source) then
        extract_entries libs defined_variables session_variables rest resp
      else
        match extract_from_source libs defined_variables session_variables
            cfg.source cfg.expr cfg.range cfg.index resp "变量提取" with
        | .ok v =>
            (extract_entries libs defined_variables session_variables rest resp).map
              (fun lst => extractSuccessRecord cfg v :: lst)
        | .error (.step m) => .error m
        | .error (.py m) =>
            (extract_entries libs defined_variables session_variables rest resp).map
              (fun lst => extractFailRecord cfg m :: lst)

/-- `HttpStepExecutor.extract_variables`
(autotest_step_engine.py:2188-2295): an empty configuration or a `None`
parsed body short-circuits to no records at all. -/
def extract_variables_run (libs : ExternalLibs)
    (defined_variables session_variables : List VarItem)
    (cfgs : List ExtractConfig) (resp : ResponseData) :
    Except String (List ExtractRecord) :=
  match resp.response_json with
  | Option.none => .ok []
  | some _ =>
      if cfgs.isEmpty then .ok []
      else extract_entries libs defined_variables session_variables cfgs resp

/-- One `assert_validators` configuration entry
`{name, expr, operation, except_value, source}`. -/
structure ValidatorConfig where
  name : Option String
  expr : Option String
  operation : Option String
  except_value : PyValue
  source : Option String

/-- One assertion result record as appended by
`HttpStepExecutor.run_validators` (autotest_step_engine.py:2514-2523). -/
structure ValidRecord where
  name : Option String
  expr : Option String
  source : Option String
  operation : Option String
  except_value : PyValue
  actual_value : PyValue
  success : Bool
  error : String
deriving Repr

/-- The record of one executed validator. -/
def mkValidRecord (cfg : ValidatorConfig) (actual : PyValue) (success : Bool) :
    ValidRecord :=
  ⟨cfg.name, cfg.expr, cfg.source, cfg.operation, cfg.except_value, actual,
    success, if success then "" else "断言失败"⟩

/-- `HttpStepExecutor.run_validators`
(autotest_step_engine.py:2445-2538): entries with a falsy `expr`,
`operation` or `except_value` are skipped outright; the actual value is
extracted with `range="SOME"`, any extraction or comparison failure raises
(aborting the whole run); otherwise a result record is appended. -/
def run_validators (libs : ExternalLibs)
    (defined_variables session_variables : List VarItem) :
    List ValidatorConfig → ResponseData → Except String (List ValidRecord)
  | [], _ => .ok []
  | cfg :: rest, resp =>
      if !(strTruthy cfg.expr && strTruthy cfg.operation && pyTruthy cfg.except_value) then
        run_validators libs defined_variables session_variables rest resp
      else
        match extract_from_source libs defined_variables session_variables
            cfg.source cfg.expr (some "SOME") Option.none resp "断言验证" with
        | .error (.step m) => .error m
        | .error (.py m) => .error ("【断言验证】提取实际值失败, 错误描述: " ++ m)
        | .ok actual =>
            match compare_assertion actual (cfg.operation.getD "") cfg.except_value with
            | .error m => .error ("【条件分支】条件比较失败: " ++ m)
            | .ok success =>
                (run_validators libs defined_variables session_variables rest resp).map
                  (fun lst => mkValidRecord cfg actual success :: lst)

/-- The assertion-failure error text
(autotest_step_engine.py:2162). -/
def assertCountMessage (n : Nat) : String :=
  "【断言验证】- 共计: " ++ toString n ++ "个断言验证未通过"

/-- The `for valid in validator_results` counting loop of
`HttpStepExecutor._execute` (autotest_step_engine.py:2148-2163): the
`assert_failed_number > 0` check sits inside the loop body, so the
`StepExecutionError` is raised as soon as the first failed record is seen,
always reporting a count of 1. -/
def assert_failed_scan (count : Nat) : List ValidRecord → Option String
  | [] => Option.none
  | r :: rest =>
      let c := if r.success then count else count + 1
      if c > 0 then some (assertCountMessage c) else assert_failed_scan c rest

/-- What the extract/assert tail of `HttpStepExecutor._execute` leaves on
the `StepExecutionResult` (together with the `except` handler of
`BaseStepExecutor.execute` that converts a raised `StepExecutionError`
into `success=False, error=str(e)`). -/
structure HttpPhaseOutcome where
  success : Bool
  error : Option String
  extract_records : List ExtractRecord
  assert_records : List ValidRecord
deriving Repr

/-- The extract-then-assert tail of `HttpStepExecutor._execute`
(autotest_step_engine.py:2124-2169) composed with the error capture of
`BaseStepExecutor.execute` (autotest_step_engine.py:876-881).  The
response's `status_code` is never consulted: `send_http_request` returns
whatever status the server sent and no branch of the tail reads it. -/
def http_extract_and_assert (libs : ExternalLibs)
    (defined_variables session_variables : List VarItem)
    (ecfgs : List ExtractConfig) (vcfgs : List ValidatorConfig)
    (resp : ResponseData) : HttpPhaseOutcome :=
  match extract_variables_run libs defined_variables session_variables ecfgs resp with
  | .error m => ⟨false, some m, [], []⟩
  | .ok records =>
    match run_validators libs defined_variables session_variables vcfgs resp with
    | .error m => ⟨false, some m, records, []⟩
    | .ok vrecords =>
      match assert_failed_scan 0 vrecords with
      | some m => ⟨false, some m, records, vrecords⟩
      | Option.none => ⟨true, Option.none, records, vrecords⟩

/-! ### Concrete instances used by witnesses and counterexamples -/

/-- A resolution environment with no variables and no generator catalog. -/
def emptyResolveEnv : ResolveEnv := ⟨[], [], fun _ => Option.none⟩

/-- An external-library behaviour where every JSONPath expression parses
but matches nothing, XML parses to no elements, and regexes never
match. -/
def noMatchLibs : ExternalLibs :=
  ⟨fun _ => true, fun _ _ => [], fun _ _ => .ok [], fun _ _ => .ok Option.none⟩

/-- A sample 200 response with JSON body `{"y": 1}`. -/
def sampleResponse : ResponseData :=
  ⟨200, some "\x7b\"y\": 1\x7d", some (.dict [("y", PyValue.int 1)]),
    some [("Content-Type", .str "application/json")], some []⟩

/-- An extraction entry reading `$.id` from the response JSON. -/
def sampleExtractCfg : ExtractConfig :=
  ⟨some "uid", some "$.id", some "response json", some "SOME", Option.none⟩

/-- An extraction entry reading `$.name` from the response JSON. -/
def sampleExtractCfg2 : ExtractConfig :=
  ⟨some "uname", some "$.name", some "response json", some "SOME", Option.none⟩

/-- A validator asserting the session variable `x` is greater than 5. -/
def sampleValidatorCfg : ValidatorConfig :=
  ⟨some "ok", some "x", some "大于", PyValue.int 5, some "session_variables"⟩

/-- A validator whose `except_value` is the falsy `0`. -/
def zeroExpectValidatorCfg : ValidatorConfig :=
  ⟨some "zero", some "x", some "等于", PyValue.int 0, some "session_variables"⟩

/-- A datetime-scheduled task with target expression `"T"`,
`last_execute_time = 50` and no creation-time fallback needed. -/
def sampleDatetimeTask : TaskInfo :=
  ⟨some "datetime", Option.none, Option.none, some "T", some 50, some 10⟩

/-- A time library parsing the expression `"T"` to the instant 100. -/
def sampleTimeLibs : TimeLibs :=
  ⟨fun _ _ => Option.none, fun e => if e = "T" then some 100 else Option.none⟩

/-! ### Lemmas about the placeholder scanner -/

theorem findClose_eq {l body rest : List Char} (h : findClose l = some (body, rest)) :
    l = body ++ '\x7d' :: rest := by
  induction l generalizing body rest with
  | nil => simp [findClose] at h
  | cons x xs ih =>
    simp only [findClose] at h
    split at h
    · simp only [Option.some.injEq, Prod.mk.injEq] at h
      obtain ⟨h1, h2⟩ := h
      subst h1; subst h2
      simp_all
    · simp only [Option.map_eq_some'] at h
      obtain ⟨p, hp, he⟩ := h
      have hx := @ih p.1 p.2 (by rw [hp])
      cases he
      simp [hx]

theorem findClose_length {l body rest : List Char} (h : findClose l = some (body, rest)) :
    l.length = body.length + 1 + rest.length := by
  have := findClose_eq h
  subst this
  simp
  omega

theorem resolveChars_closed (env : ResolveEnv) {rest2 content rest' : List Char}
    (h : findClose rest2 = some (content, rest')) :
    resolveChars env ('$' :: '\x7b' :: rest2) =
      (if content = [] then '$' :: '\x7b' :: '\x7d' :: resolveChars env rest'
       else replaceOne env content ++ resolveChars env rest') := by
  simp only [resolveChars, reduceIte]
  split
  · rename_i content2 rest2' heq
    rw [h] at heq
    cases heq
    rfl
  · rename_i heq
    rw [h] at heq
    cases heq

theorem resolveChars_unclosed (env : ResolveEnv) {rest2 : List Char}
    (h : findClose rest2 = Option.none) :
    resolveChars env ('$' :: '\x7b' :: rest2) = '$' :: '\x7b' :: rest2 := by
  simp only [resolveChars, reduceIte]
  split
  · rename_i content2 rest2' heq
    rw [h] at heq
    cases heq
  · rfl

theorem placeholderContents_closed {rest2 content rest' : List Char}
    (h : findClose rest2 = some (content, rest')) :
    placeholderContents ('$' :: '\x7b' :: rest2) =
      (if content = [] then placeholderContents rest'
       else content :: placeholderContents rest') := by
  simp only [placeholderContents, reduceIte]
  split
  · rename_i content2 rest2' heq
    rw [h] at heq
    cases heq
    rfl
  · rename_i heq
    rw [h] at heq
    cases heq

/-- When every placeholder body in the string keeps its literal (undefined
variable, failing generator call, or all-whitespace body), the scan is the
identity: unresolved placeholders survive verbatim. -/
theorem resolveChars_keeps_unresolved (env : ResolveEnv) (l : List Char)
    (h : ∀ c ∈ placeholderContents l, replaceOne env c = placeholderLiteral c) :
    resolveChars env l = l := by
  induction l using resolveChars.induct env with
  | case1 => simp [resolveChars]
  | case2 => simp [resolveChars]
  | case3 rest rest' hfc ih =>
    have heq := findClose_eq hfc
    rw [placeholderContents_closed hfc, if_pos rfl] at h
    rw [resolveChars_closed env hfc, if_pos rfl, ih h, heq]
    simp
  | case4 rest content rest' hfc hne ih =>
    have heq := findClose_eq hfc
    rw [placeholderContents_closed hfc, if_neg hne] at h
    have hkeep := h content (by simp)
    have hrest : ∀ c ∈ placeholderContents rest', replaceOne env c = placeholderLiteral c :=
      fun c hc => h c (by simp [hc])
    rw [resolveChars_closed env hfc, if_neg hne, ih hrest, hkeep, heq, placeholderLiteral]
    simp
  | case5 rest hfc =>
    exact resolveChars_unclosed env hfc
  | case6 c rest hc ih =>
    have hph : placeholderContents ('$' :: c :: rest) = placeholderContents (c :: rest) := by
      rw [placeholderContents.eq_def]
      simp only [reduceIte]
      rw [if_neg hc]
    rw [hph] at h
    rw [resolveChars.eq_def]
    simp only [reduceIte]
    rw [if_neg hc, ih h]
  | case7 c rest hc ih =>
    have hph : placeholderContents (c :: rest) = placeholderContents rest := by
      rw [placeholderContents.eq_def]
      simp only []
      rw [if_neg hc]
    rw [hph] at h
    rw [resolveChars.eq_def]
    simp only []
    rw [if_neg hc, ih h]


/-! ## Claim theorems -/

/-- C5: `resolve_placeholders` never raises (it is total by construction,
every failure branch of the source keeping the literal), an undefined
`${name}` keeps its literal text, and on a string none of whose
placeholders resolves (each body keeps its literal: undefined variable,
failing generator call, or blank body) the function is the identity, hence
idempotent. -/
theorem resolve_placeholders_idempotent_on_unresolvable (env : ResolveEnv) (s : String)
    (h : ∀ c ∈ placeholderContents s.data, replaceOne env c = placeholderLiteral c) :
    resolve_placeholders env (resolve_placeholders env s) = resolve_placeholders env s
    ∧ resolve_placeholders env s = s := by
  have hk := resolveChars_keeps_unresolved env s.data h
  have hs : resolve_placeholders env s = s := by
    rw [resolve_placeholders, hk]
  exact ⟨by rw [hs, hs], hs⟩

/-- Witness for C5 at the concrete string `"a ${x} b"` against an empty
variable pool. -/
theorem resolve_placeholders_idempotent_witness :
    resolve_placeholders emptyResolveEnv (resolve_placeholders emptyResolveEnv "a ${x} b") =
      resolve_placeholders emptyResolveEnv "a ${x} b" := by
  refine (resolve_placeholders_idempotent_on_unresolvable emptyResolveEnv "a ${x} b" ?_).1
  intro c hc
  simp [placeholderContents, findClose] at hc
  subst hc
  rfl

/-- C10: a variable stored as `None` reads as undefined: when both scopes
yield `None` (no entry, or a first entry holding `None`), `get_variable`
raises `KeyError`; and a `None`-valued `defined_variables` entry does not
shadow a non-`None` `session_variables` entry — the lookup falls through
and returns the session value. -/
theorem get_variable_none_indistinguishable (d s : List VarItem) (name : String)
    (h : name ≠ "") :
    (get_value_from_list d name = PyValue.none →
       get_value_from_list s name = PyValue.none →
       get_variable d s name = .error .key_not_found)
    ∧ (∀ v : PyValue, get_value_from_list d name = PyValue.none →
       get_value_from_list s name = v → v ≠ PyValue.none →
       get_variable d s name = .ok v) := by
  constructor
  · intro hd hs
    simp [get_variable, h, hd, hs]
  · intro v hd hs hv
    simp only [get_variable, if_neg h, hd]
    rw [hs]
    cases v <;> simp_all

/-- Witness for C10: `defined_variables` stores `a = None`,
`session_variables` stores `a = 5`; lookup returns 5. -/
theorem get_variable_none_indistinguishable_witness :
    get_variable [⟨"a", PyValue.none, ""⟩] [⟨"a", PyValue.int 5, ""⟩] "a" =
      .ok (PyValue.int 5) :=
  (get_variable_none_indistinguishable [⟨"a", PyValue.none, ""⟩]
      [⟨"a", PyValue.int 5, ""⟩] "a" (by decide)).2
    (PyValue.int 5) rfl rfl (fun hx => PyValue.noConfusion hx)

/-- C2 (code evaluated at the failing input): the dict binding built by
`_execute_iterable_loop` for every iteration is rejected by
`update_variables`, which accepts only lists — so the loop-variable
bindings are never written into `session_variables`; the `ValueError`
becomes a `StepExecutionError` that aborts the loop before any child
executes. -/
theorem iterable_loop_bindings_rejected (sess : List VarItem)
    (index_var value_var : String) (idx : Nat) (item : PyValue) :
    update_variables "session_variables" sess
        (iterable_loop_bindings index_var value_var idx item) =
      .error ("【更新变量】-【session_variables】错误: " ++
        "session_variables必须是列表类型，每个元素包含key、value、desc") := rfl

/-- C3 (code evaluated at the failing input): when the report create fails
inside the transaction, every write rolls back (the database state is
returned unchanged) and the summary is still returned — but with
`saved_to_database = true`, the hardcoded literal of
autotest_step_crud.py:973. -/
theorem execute_single_case_save_swallows_tx_failure (db : CaseRunDb)
    (report_code : String) (details : List String) (case_last_time : String)
    (total success failed : Nat) :
    execute_single_case_save db report_code details case_last_time
        ⟨true, fun _ => false, false⟩ total success failed =
      (db, ⟨failed == 0, total, success, failed, some report_code, true⟩) := rfl

/-- C9: an `assert_validators` entry whose `expr`, `operation` or
`except_value` is falsy is silently skipped: `run_validators` behaves as
if the entry were absent (no record, no comparison), so the entry can
never fail the step. -/
theorem run_validators_skips_falsy_entry (libs : ExternalLibs)
    (d s : List VarItem) (entry : ValidatorConfig) (rest : List ValidatorConfig)
    (ecfgs : List ExtractConfig) (resp : ResponseData)
    (h : strTruthy entry.expr = false ∨ strTruthy entry.operation = false ∨
         pyTruthy entry.except_value = false) :
    run_validators libs d s (entry :: rest) resp = run_validators libs d s rest resp
    ∧ http_extract_and_assert libs d s ecfgs (entry :: rest) resp =
        http_extract_and_assert libs d s ecfgs rest resp := by
  have hskip : (strTruthy entry.expr && strTruthy entry.operation &&
      pyTruthy entry.except_value) = false := by
    rcases h with h | h | h <;> simp [h]
  have h1 : run_validators libs d s (entry :: rest) resp =
      run_validators libs d s rest resp := by
    simp only [run_validators, hskip]
    simp
  exact ⟨h1, by simp only [http_extract_and_assert, h1]⟩

/-- Witness for C9: an entry expecting the falsy value `0` contributes
nothing. -/
theorem run_validators_skips_falsy_entry_witness :
    run_validators noMatchLibs [] [⟨"x", PyValue.int 1, ""⟩]
        [zeroExpectValidatorCfg] sampleResponse =
      run_validators noMatchLibs [] [⟨"x", PyValue.int 1, ""⟩] [] sampleResponse :=
  (run_validators_skips_falsy_entry noMatchLibs [] [⟨"x", PyValue.int 1, ""⟩]
      zeroExpectValidatorCfg [] [] sampleResponse (Or.inr (Or.inr rfl))).1

/-- C8: for a datetime-scheduled task with a recorded `last_execute_time`
and a parseable target, the dueness check returns true exactly when the
current time has reached the target and the last execution predates it. -/
theorem check_task_expired_datetime_iff (libs : TimeLibs) (now : Int)
    (task : TaskInfo) (target last : Int)
    (hs : get_scheduler_value task.task_scheduler = some "datetime")
    (hl : task.last_execute_time = some last)
    (he : String.mk (pyStripChars (task.task_datetime_expr.getD "").data) ≠ "")
    (hp : libs.strptime (String.mk (pyStripChars (task.task_datetime_expr.getD "").data)) =
      some target) :
    check_task_expired libs now task = true ↔ now ≥ target ∧ last < target := by
  simp only [check_task_expired, hs, hl, Option.orElse]
  norm_num
  rw [if_neg (show ¬ ("datetime" : String) = "cron" by decide),
      if_neg (show ¬ ("datetime" : String) = "interval" by decide)]
  constructor
  · rintro ⟨h1, h2⟩
    rw [hp] at h2
    simp at h2
    omega
  · intro hcl
    refine ⟨he, ?_⟩
    rw [hp]
    simp
    omega

/-- Witness for C8: target instant 100, last execution 50, now 150 — the
task is due. -/
theorem check_task_expired_datetime_witness :
    check_task_expired sampleTimeLibs 150 sampleDatetimeTask = true :=
  (check_task_expired_datetime_iff sampleTimeLibs 150 sampleDatetimeTask 100 50
      (by decide) rfl (by decide) (by decide)).mpr (by omega)

/-- C7: the sub-steps a step executes are exactly `children` together with
`quote_steps` (a permutation of their concatenation), they come out in
ascending `step_no` order, and `_execute_children` produces one result per
sub-step in exactly that order. -/
theorem children_execution_order (children quote_steps : List ChildStep) :
    (children_sorted children quote_steps).Perm (children ++ quote_steps)
    ∧ (children_sorted children quote_steps).Pairwise
        (fun a b => step_no_key a ≤ step_no_key b)
    ∧ ∀ (R : Type) (f : ChildStep → R),
        execute_children R f children quote_steps =
          (children_sorted children quote_steps).map f := by
  refine ⟨List.mergeSort_perm _ _, ?_, fun R f => rfl⟩
  have hp := @List.sorted_mergeSort ChildStep
      (fun a b => decide (step_no_key a ≤ step_no_key b))
      (fun a b c hab hbc => by
        simp only [decide_eq_true_eq] at *
        omega)
      (fun a b => by
        simp only [Bool.or_eq_true, decide_eq_true_eq]
        omega)
      (children ++ quote_steps)
  exact hp.imp (fun h => by simpa using h)

/-- Fuel-indexed bound: from iteration `iter`, a COUNT loop executes at
most `101 - iter` further iterations. -/
theorem count_loop_go_iters_le (m : Nat) (oe : LoopErrorStrategy) (cf : Nat → Bool) :
    ∀ k iter, 101 - iter ≤ k → iter ≤ 100 →
      (count_loop_go m oe cf iter).1 + iter ≤ 101 := by
  intro k
  induction k with
  | zero =>
    intro iter h1 h2
    omega
  | succ k ih =>
    intro iter h1 h2
    rw [count_loop_go.eq_def]
    simp only [loop_guard_limit]
    split
    · simp
      omega
    · split
      · simp
        omega
      · split
        · rename_i hguard hlt
          have := ih (iter + 1) (by omega) (by omega)
          simp
          omega
        · simp
          omega

/-- Fuel-indexed exact shape: under CONTINUE with `maximums ≥ 100`, a COUNT
loop started at `iter ≤ 100` runs the remaining `101 - iter` iterations and
ends with the suspected-infinite-loop error raised at iteration 100. -/
theorem count_loop_go_continue_guard (m : Nat) (cf : Nat → Bool) (hm : 100 ≤ m) :
    ∀ k iter, 101 - iter ≤ k → 1 ≤ iter → iter ≤ 100 →
      count_loop_go m .CONTINUE cf iter =
        (101 - iter, .raised (guardErrorMessage 100)) := by
  intro k
  induction k with
  | zero =>
    intro iter h1 h2 h3
    exact absurd h1 (by omega)
  | succ k ih =>
    intro iter h1 h2 h3
    rw [count_loop_go.eq_def]
    simp only [loop_guard_limit, ite_self]
    by_cases hiter : iter ≥ 100
    · have hq : iter = 100 := by omega
      subst hq
      rw [if_pos (by omega)]
    · rw [if_neg hiter, if_pos (by omega : iter < m)]
      rw [ih (iter + 1) (by omega) (by omega) (by omega)]
      simp
      omega

/-- Fuel-indexed bound for the CONDITION loop. -/
theorem condition_loop_go_iters_le (oe : LoopErrorStrategy)
    (cf th : Nat → Bool) (ce : Nat → Except String Bool) :
    ∀ k iter, 101 - iter ≤ k → iter ≤ 100 →
      (condition_loop_go oe cf th ce iter).1 + iter ≤ 101 := by
  intro k
  induction k with
  | zero =>
    intro iter h1 h2
    omega
  | succ k ih =>
    intro iter h1 h2
    rw [condition_loop_go.eq_def]
    simp only [loop_guard_limit]
    split
    · simp
      omega
    · split
      · simp
        omega
      · split
        · simp
          omega
        · simp
          omega
        · split
          · simp
            omega
          · rename_i hguard
            have := ih (iter + 1) (by omega) (by omega)
            simp
            omega

/-- Fuel-indexed exact shape: under CONTINUE, with no timeout and an
always-true condition, a CONDITION loop started at `iter ≤ 100` runs the
remaining `101 - iter` iterations and ends with the
suspected-infinite-loop error raised at iteration 100. -/
theorem condition_loop_go_continue_guard (cf th : Nat → Bool)
    (ce : Nat → Except String Bool)
    (hth : ∀ i, th i = false) (hce : ∀ i, ce i = .ok true) :
    ∀ k iter, 101 - iter ≤ k → 1 ≤ iter → iter ≤ 100 →
      condition_loop_go .CONTINUE cf th ce iter =
        (101 - iter, .raised (guardErrorMessage 100)) := by
  intro k
  induction k with
  | zero =>
    intro iter h1 h2 h3
    exact absurd h1 (by omega)
  | succ k ih =>
    intro iter h1 h2 h3
    rw [condition_loop_go.eq_def]
    simp only [loop_guard_limit, ite_self, hth, hce]
    rw [if_neg (by simp)]
    by_cases hiter : iter ≥ 100
    · have hq : iter = 100 := by omega
      subst hq
      rw [if_pos (by omega)]
    · rw [if_neg hiter]
      rw [ih (iter + 1) (by omega) (by omega) (by omega)]
      simp
      omega

/-- C4: whatever the configuration (`loop_maximums`, on-error strategy,
child outcomes, conditions, timeout behaviour), a COUNT or CONDITION loop
executes its children in at most 100 iterations; and when nothing else
stops it first (CONTINUE strategy, `loop_maximums ≥ 100`, resp. an
always-true condition with no timeout), it runs exactly 100 iterations and
terminates by raising the explicit suspected-infinite-loop
(`疑似无限循环`) error. -/
theorem loop_guard_cap (m : Nat) (oe : LoopErrorStrategy)
    (cf cf2 th : Nat → Bool) (conds : Option String)
    (ce : Nat → Except String Bool) :
    (execute_count_loop m oe cf).1 ≤ 100
    ∧ (execute_condition_loop conds oe cf2 th ce).1 ≤ 100
    ∧ (100 ≤ m →
        execute_count_loop m .CONTINUE cf = (100, .raised (guardErrorMessage 100)))
    ∧ (∀ c, conds = some c → c ≠ "" → (∀ i, th i = false) → (∀ i, ce i = .ok true) →
        execute_condition_loop conds .CONTINUE cf2 th ce =
          (100, .raised (guardErrorMessage 100))) := by
  refine ⟨?_, ?_, ?_, ?_⟩
  · rw [execute_count_loop]
    split
    · simp
    · have := count_loop_go_iters_le m oe cf 101 1 (by omega) (by omega)
      omega
  · rw [execute_condition_loop.eq_def]
    split
    · simp
    · split
      · simp
      · have := condition_loop_go_iters_le oe cf2 th ce 101 1 (by omega) (by omega)
        omega
  · intro hm
    rw [execute_count_loop, if_neg (by omega)]
    have := count_loop_go_continue_guard m cf hm 101 1 (by omega) (by omega) (by omega)
    simpa using this
  · intro c hc hne hth hce
    rw [execute_condition_loop.eq_def, hc]
    simp only []
    rw [if_neg hne]
    have := condition_loop_go_continue_guard cf2 th ce hth hce 101 1
      (by omega) (by omega) (by omega)
    simpa using this

/-- Witness for C4: a COUNT loop configured for 500 iterations and a
CONDITION loop whose condition never turns false both stop after exactly
100 child iterations with the suspected-infinite-loop error. -/
theorem loop_guard_cap_witness :
    execute_count_loop 500 .CONTINUE (fun _ => false) =
      (100, .raised (guardErrorMessage 100))
    ∧ execute_condition_loop (some "cond") .CONTINUE (fun _ => false)
        (fun _ => false) (fun _ => .ok true) =
      (100, .raised (guardErrorMessage 100)) :=
  ⟨(loop_guard_cap 500 .CONTINUE (fun _ => false) (fun _ => false) (fun _ => false)
      (some "cond") (fun _ => .ok true)).2.2.1 (by omega),
   (loop_guard_cap 500 .CONTINUE (fun _ => false) (fun _ => false) (fun _ => false)
      (some "cond") (fun _ => .ok true)).2.2.2 "cond" rfl (by decide)
      (fun _ => rfl) (fun _ => rfl)⟩

/-- C1 (amended): inside `extract_variables`, per-entry capture
(`success=false` record, processing continues) applies only to failures
that raise a non-`StepExecutionError` exception, such as the
`AttributeError` from a null `range` field; the failures the spec names —
a JSONPath expression with no match, a regex with no match, a missing
header/cookie key — raise `StepExecutionError`, which the per-entry
handler re-raises, so they abort the remaining entries and fail the whole
step. -/
theorem extract_entry_failure_behaviour (libs : ExternalLibs)
    (d s : List VarItem) (cfg : ExtractConfig) (rest : List ExtractConfig)
    (vcfgs : List ValidatorConfig) (resp : ResponseData)
    (hw : (strTruthy cfg.name && strTruthy cfg.expr && strTruthy cfg.source) = true)
    (hj : resp.response_json ≠ Option.none) :
    (∀ m, extract_from_source libs d s cfg.source cfg.expr cfg.range cfg.index
        resp "变量提取" = .error (.step m) →
      extract_entries libs d s (cfg :: rest) resp = .error m
      ∧ http_extract_and_assert libs d s (cfg :: rest) vcfgs resp =
          ⟨false, some m, [], []⟩)
    ∧ (∀ m, extract_from_source libs d s cfg.source cfg.expr cfg.range cfg.index
        resp "变量提取" = .error (.py m) →
      extract_entries libs d s (cfg :: rest) resp =
        (extract_entries libs d s rest resp).map
          (fun lst => extractFailRecord cfg m :: lst)) := by
  constructor
  · intro m hex
    have h1 : extract_entries libs d s (cfg :: rest) resp = .error m := by
      simp only [extract_entries, hw, hex]
      simp
    refine ⟨h1, ?_⟩
    rcases hq : resp.response_json with _ | j
    · exact absurd hq hj
    · simp only [http_extract_and_assert, extract_variables_run, hq, h1]
      simp
  · intro m hex
    simp only [extract_entries, hw, hex]
    simp

/-- Witness for C1's amended theorem: with a JSONPath library that matches
nothing, the first entry's no-match failure aborts extraction with the
raised message and the second entry is never processed. -/
theorem extract_entry_failure_behaviour_witness :
    extract_entries noMatchLibs [] [] [sampleExtractCfg, sampleExtractCfg2]
        sampleResponse =
      .error "【JSONPath解析】表达式$.id在当前数据源中无任何匹配结果, 请检查路径或响应结构" :=
  (((extract_entry_failure_behaviour noMatchLibs [] [] sampleExtractCfg
      [sampleExtractCfg2] [] sampleResponse rfl
      (by intro h; simp [sampleResponse] at h)).1)
    "【JSONPath解析】表达式$.id在当前数据源中无任何匹配结果, 请检查路径或响应结构" rfl).1

/-- C1 counterexample: for an HTTP step with two extraction entries whose
first has a JSONPath expression with no match, the claim predicts a
per-entry `success=false` record, a processed second entry, and an
unaffected step; the code instead fails the step (`success=false`) and
records no extraction result at all. -/
theorem extract_failure_fails_step_counterexample :
    (http_extract_and_assert noMatchLibs [] [] [sampleExtractCfg, sampleExtractCfg2]
        [] sampleResponse).success = false
    ∧ (http_extract_and_assert noMatchLibs [] [] [sampleExtractCfg, sampleExtractCfg2]
        [] sampleResponse).extract_records = [] := ⟨rfl, rfl⟩

/-- The counting loop over validator results stops at the first failed
record, always reporting a count of exactly 1. -/
theorem assert_failed_scan_first_failure :
    ∀ l : List ValidRecord, (∃ r ∈ l, r.success = false) →
      assert_failed_scan 0 l = some (assertCountMessage 1) := by
  intro l
  induction l with
  | nil =>
    rintro ⟨r, hr, _⟩
    cases hr
  | cons x rest ih =>
    rintro ⟨r, hr, hs⟩
    by_cases hx : x.success = true
    · simp only [assert_failed_scan, hx]
      simp only [reduceIte]
      apply ih
      refine ⟨r, ?_, hs⟩
      rcases List.mem_cons.mp hr with rfl | hm
      · rw [hs] at hx
        cases hx
      · exact hm
    · have hx2 : x.success = false := by
        cases hxs : x.success
        · rfl
        · exact absurd hxs hx
      simp [assert_failed_scan, hx2]

/-- Status-code independence of one source extraction: the status code is
never consulted. -/
theorem extract_from_source_status_irrelevant (libs : ExternalLibs)
    (d s : List VarItem) (source expr range_type : Option String)
    (index : Option Int) (sc1 sc2 : Int) (rt : Option String)
    (rj : Option PyValue) (rh rc : Option (List (String × PyValue))) (op : String) :
    extract_from_source libs d s source expr range_type index ⟨sc1, rt, rj, rh, rc⟩ op =
      extract_from_source libs d s source expr range_type index ⟨sc2, rt, rj, rh, rc⟩ op := rfl

/-- Status-code independence of the extraction loop. -/
theorem extract_entries_status_irrelevant (libs : ExternalLibs)
    (d s : List VarItem) (sc1 sc2 : Int) (rt : Option String)
    (rj : Option PyValue) (rh rc : Option (List (String × PyValue))) :
    ∀ ecfgs, extract_entries libs d s ecfgs ⟨sc1, rt, rj, rh, rc⟩ =
      extract_entries libs d s ecfgs ⟨sc2, rt, rj, rh, rc⟩ := by
  intro ecfgs
  induction ecfgs with
  | nil => rfl
  | cons cfg rest ih =>
    have hx : extract_from_source libs d s cfg.source cfg.expr cfg.range cfg.index
        ⟨sc1, rt, rj, rh, rc⟩ "变量提取" =
      extract_from_source libs d s cfg.source cfg.expr cfg.range cfg.index
        ⟨sc2, rt, rj, rh, rc⟩ "变量提取" := rfl
    simp only [extract_entries, hx, ih]

/-- Status-code independence of the assertion loop. -/
theorem run_validators_status_irrelevant (libs : ExternalLibs)
    (d s : List VarItem) (sc1 sc2 : Int) (rt : Option String)
    (rj : Option PyValue) (rh rc : Option (List (String × PyValue))) :
    ∀ vcfgs, run_validators libs d s vcfgs ⟨sc1, rt, rj, rh, rc⟩ =
      run_validators libs d s vcfgs ⟨sc2, rt, rj, rh, rc⟩ := by
  intro vcfgs
  induction vcfgs with
  | nil => rfl
  | cons cfg rest ih =>
    have hx : extract_from_source libs d s cfg.source cfg.expr (some "SOME")
        Option.none ⟨sc1, rt, rj, rh, rc⟩ "断言验证" =
      extract_from_source libs d s cfg.source cfg.expr (some "SOME")
        Option.none ⟨sc2, rt, rj, rh, rc⟩ "断言验证" := rfl
    simp only [run_validators, hx, ih]

/-- Status-code independence of the whole extract/assert tail. -/
theorem http_extract_and_assert_status_irrelevant (libs : ExternalLibs)
    (d s : List VarItem) (ecfgs : List ExtractConfig)
    (vcfgs : List ValidatorConfig) (sc1 sc2 : Int) (rt : Option String)
    (rj : Option PyValue) (rh rc : Option (List (String × PyValue))) :
    http_extract_and_assert libs d s ecfgs vcfgs ⟨sc1, rt, rj, rh, rc⟩ =
      http_extract_and_assert libs d s ecfgs vcfgs ⟨sc2, rt, rj, rh, rc⟩ := by
  have h1 := extract_entries_status_irrelevant libs d s sc1 sc2 rt rj rh rc ecfgs
  have h2 := run_validators_status_irrelevant libs d s sc1 sc2 rt rj rh rc vcfgs
  simp only [http_extract_and_assert, extract_variables_run, h1, h2]

/-- C6 (amended): the response status code by itself never decides the
step — the extract/assert tail is independent of it — and when at least
one validator record compares false the step ends with `success=false`
and the error `"【断言验证】- 共计: 1个断言验证未通过"`: the
`assert_failed_number > 0` check sits inside the loop, so the reported
count is always 1, not the total number of failed assertions. -/
theorem http_assert_failure_outcome (libs : ExternalLibs)
    (d s : List VarItem) (ecfgs : List ExtractConfig)
    (vcfgs : List ValidatorConfig) (resp : ResponseData)
    (records : List ExtractRecord) (vrecords : List ValidRecord)
    (he : extract_variables_run libs d s ecfgs resp = .ok records)
    (hv : run_validators libs d s vcfgs resp = .ok vrecords)
    (hfail : ∃ r ∈ vrecords, r.success = false) :
    http_extract_and_assert libs d s ecfgs vcfgs resp =
      ⟨false, some (assertCountMessage 1), records, vrecords⟩
    ∧ ∀ sc : Int,
        http_extract_and_assert libs d s ecfgs vcfgs
            { resp with status_code := sc } =
          http_extract_and_assert libs d s ecfgs vcfgs resp := by
  constructor
  · simp only [http_extract_and_assert, he, hv,
      assert_failed_scan_first_failure vrecords hfail]
  · intro sc
    cases resp with
    | mk a rt rj rh rc =>
      exact http_extract_and_assert_status_irrelevant libs d s ecfgs vcfgs sc a rt rj rh rc

/-- Witness for C6's amended theorem: one failing `大于` assertion over a
session variable ends the step with `success=false` and the count-1
error. -/
theorem http_assert_failure_outcome_witness :
    http_extract_and_assert noMatchLibs [] [⟨"x", PyValue.int 1, ""⟩] []
        [sampleValidatorCfg] sampleResponse =
      ⟨false, some (assertCountMessage 1), [],
        [mkValidRecord sampleValidatorCfg (PyValue.int 1) false]⟩ :=
  (http_assert_failure_outcome noMatchLibs [] [⟨"x", PyValue.int 1, ""⟩] []
      [sampleValidatorCfg] sampleResponse []
      [mkValidRecord sampleValidatorCfg (PyValue.int 1) false]
      rfl rfl
      ⟨mkValidRecord sampleValidatorCfg (PyValue.int 1) false,
        List.mem_singleton.mpr rfl, rfl⟩).1

/-- C6 counterexample: with two failing assertions the step fails but the
error message reports a count of 1, not the count (2) of failed
assertions, refuting the claim's count-reporting part at this input. -/
theorem assert_count_misreport_counterexample :
    (http_extract_and_assert noMatchLibs [] [⟨"x", PyValue.int 1, ""⟩] []
        [sampleValidatorCfg, sampleValidatorCfg] sampleResponse).error =
      some (assertCountMessage 1)
    ∧ ((http_extract_and_assert noMatchLibs [] [⟨"x", PyValue.int 1, ""⟩] []
        [sampleValidatorCfg, sampleValidatorCfg] sampleResponse).assert_records.filter
          (fun r => !r.success)).length = 2
    ∧ assertCountMessage 1 ≠ assertCountMessage 2 :=
  ⟨rfl, rfl, by decide⟩

end Krun
